import Mathlib

/-!
Verification of the CaseMatch similarity retrieval system.

The repository consists of a TypeScript Express server (`server/storage.ts`,
`server/routes.ts`), a React client, and documentation for a Python
similarity engine (`backend/production_cas.py` / `similarity.py`) that the
server invokes as a subprocess.  The Python engine itself is not present in
the repository snapshot, so its data model and the `rank` / `find_similar`
operations are modelled from the specification; the in-memory storage
operations and the `/api/search-similar` route handler are embedded directly
from the TypeScript source.
-/

namespace CaseMatch

/-- Modelled from the spec: a `CaseRecord` of the similarity engine (§3) —
case identifier, descriptive text fields, metadata fields, and an embedding
vector of numbers.  Floating-point entries are modelled as rationals.  The
Python table loader producing these records is not in the repository. -/
structure CaseRecord where
  case_id : String
  title : String
  resolution : String
  assignment_group : String
  case_type : String
  status : String
  embedding : List ℚ
  deriving DecidableEq

/-- Modelled from the spec: a `SimilarityResult` (§3) — case identifier,
similarity score, and the record's descriptive fields.  Generic in the score
type so that the ranking algorithm can be stated for any linearly ordered
score domain. -/
structure SimilarityResult (α : Type) where
  case_id : String
  score : α
  title : String
  resolution : String
  assignment_group : String
  case_type : String
  status : String
  deriving DecidableEq

/-- Modelled from the spec: failure of the similarity engine when the query
identifier is absent from the loaded table (§4.3). -/
inductive RankError where
  | notFound (query_id : String)
  deriving DecidableEq

/-- Ordering used to sort results: descending by score, ties broken by
ascending case identifier (§4.3).  Identifiers are compared by their
character lists, which carries the same order as `String` comparison
(`String.le_iff_toList_le`). -/
def resOrder {α : Type} [LinearOrder α] (a b : SimilarityResult α) : Prop :=
  b.score < a.score ∨ (a.score = b.score ∧ a.case_id.data ≤ b.case_id.data)

instance {α : Type} [LinearOrder α] : DecidableRel (@resOrder α _) := fun a b =>
  inferInstanceAs (Decidable (b.score < a.score ∨ (a.score = b.score ∧ a.case_id.data ≤ b.case_id.data)))

instance {α : Type} [LinearOrder α] : IsTotal (SimilarityResult α) resOrder := by
  constructor
  intro a b
  rcases lt_trichotomy a.score b.score with h | h | h
  · exact Or.inr (Or.inl h)
  · rcases le_total a.case_id.data b.case_id.data with hi | hi
    · exact Or.inl (Or.inr ⟨h, hi⟩)
    · exact Or.inr (Or.inr ⟨h.symm, hi⟩)
  · exact Or.inl (Or.inl h)

instance {α : Type} [LinearOrder α] : IsTrans (SimilarityResult α) resOrder := by
  constructor
  intro a b c hab hbc
  rcases hab with h1 | ⟨h1e, h1i⟩ <;> rcases hbc with h2 | ⟨h2e, h2i⟩
  · exact Or.inl (lt_trans h2 h1)
  · exact Or.inl (h2e ▸ h1)
  · exact Or.inl (by rw [h1e]; exact h2)
  · exact Or.inr ⟨h1e.trans h2e, le_trans h1i h2i⟩

/-- Modelled from the spec: the candidate records for a query — every record
of the table other than the query case itself (§4.3: "The query case itself
is excluded from its own result set"). -/
def candidatesOf (table : List CaseRecord) (query_id : String) : List CaseRecord :=
  table.filter (fun r => r.case_id != query_id)

/-- Build a `SimilarityResult` from a candidate record and its score. -/
def toResult {α : Type} (score : α) (r : CaseRecord) : SimilarityResult α :=
  ⟨r.case_id, score, r.title, r.resolution, r.assignment_group, r.case_type, r.status⟩

/-- Score every candidate against the query record's embedding. -/
def scoreTable {α : Type} (sim : List ℚ → List ℚ → α) (qrec : CaseRecord)
    (cands : List CaseRecord) : List (SimilarityResult α) :=
  cands.map (fun r => toResult (sim qrec.embedding r.embedding) r)

/-- Modelled from the spec: the similarity engine `rank` (§4.3).  The Python
implementation is not in the repository.  Look up the query id (absence is
`NotFoundError`), score every other record against the query embedding, sort
descending by score with ties broken by ascending case identifier, truncate
to `k`.  The pairwise similarity function is a parameter (the source
instantiates it with cosine similarity, `cosineSim` below). -/
def rank {α : Type} [LinearOrder α] (sim : List ℚ → List ℚ → α)
    (table : List CaseRecord) (query_id : String) (k : ℕ) :
    Except RankError (List (SimilarityResult α)) :=
  match table.find? (fun r => r.case_id == query_id) with
  | none => .error (.notFound query_id)
  | some qrec =>
      .ok ((List.insertionSort resOrder (scoreTable sim qrec (candidatesOf table query_id))).take k)

/-- Dot product of two embedding vectors. -/
def dotProduct (q v : List ℚ) : ℚ := (List.zipWith (· * ·) q v).sum

/-- Squared Euclidean norm of an embedding vector. -/
def normSq (v : List ℚ) : ℚ := dotProduct v v

/-- Euclidean norm of an embedding vector. -/
noncomputable def vecNorm (v : List ℚ) : ℝ := Real.sqrt ((normSq v : ℚ) : ℝ)

/-- Modelled from the spec: cosine similarity (§4.3) — `(q·v)/(‖q‖·‖v‖)`,
defined as `0` when either norm is zero (equivalently, when either squared
norm is zero).  The Python implementation is not in the repository. -/
noncomputable def cosineSim (q v : List ℚ) : ℝ :=
  if normSq q = 0 ∨ normSq v = 0 then 0
  else ((dotProduct q v : ℚ) : ℝ) / (vecNorm q * vecNorm v)

/-- The similarity engine instantiated with cosine similarity, as the spec
describes the full pipeline. -/
noncomputable def rankCosine (table : List CaseRecord) (query_id : String) (k : ℕ) :
    Except RankError (List (SimilarityResult ℝ)) :=
  rank cosineSim table query_id k

/-- A `Case` row of the in-memory storage, from `shared/schema.ts`
(`id`, `number`, `title`, `resolution`, `similarity` (integer),
`externalUrl`, `assignmentGroup`, `caseType`, `status`). -/
structure Case where
  id : ℕ
  number : String
  title : String
  resolution : String
  similarity : ℤ
  externalUrl : String
  assignmentGroup : String
  caseType : String
  status : String
  deriving DecidableEq

/-- The comparator `(a, b) => b.similarity - a.similarity` of
`MemStorage` in `server/storage.ts`: `a` may precede `b` exactly when the
comparator is non-positive, i.e. when `b.similarity ≤ a.similarity`. -/
def caseDesc (a b : Case) : Prop := b.similarity ≤ a.similarity

instance : DecidableRel caseDesc := fun a b =>
  inferInstanceAs (Decidable (b.similarity ≤ a.similarity))

instance : IsTotal Case caseDesc := ⟨fun a b => le_total b.similarity a.similarity⟩

instance : IsTrans Case caseDesc := ⟨fun _ _ _ h1 h2 => le_trans h2 h1⟩

/-- `MemStorage.getAllCases` (`server/storage.ts`): all cases sorted by the
descending-similarity comparator.  The `cases` list stands for the map's
values in insertion order. -/
def getAllCases (cases : List Case) : List Case :=
  List.insertionSort caseDesc cases

/-- Substring test on character lists, used to model JavaScript
`String.prototype.includes`. -/
def listContainsSub (needle : List Char) : List Char → Bool
  | [] => needle.isEmpty
  | c :: cs => List.isPrefixOf needle (c :: cs) || listContainsSub needle cs

/-- JavaScript `hay.includes(needle)`. -/
def strIncludes (hay needle : String) : Bool :=
  listContainsSub needle.toList hay.toList

/-- The filter predicate of `MemStorage.searchCases`: the lowercased query
occurs in the lowercased title, resolution, or case number. -/
def matchesQuery (query : String) (c : Case) : Bool :=
  strIncludes c.title.toLower query.toLower ||
  strIncludes c.resolution.toLower query.toLower ||
  strIncludes c.number.toLower query.toLower

/-- `MemStorage.searchCases` (`server/storage.ts`): filter by the query,
then sort by the descending-similarity comparator. -/
def searchCases (cases : List Case) (query : String) : List Case :=
  List.insertionSort caseDesc (cases.filter (matchesQuery query))

/-- The optional filters accepted by `MemStorage.filterCases`. -/
structure CaseFilters where
  assignmentGroup : Option String
  caseType : Option String
  status : Option String
  deriving DecidableEq

/-- JavaScript truthiness of an optional string field: truthy exactly when
present and non-empty. -/
def optTruthy : Option String → Bool
  | none => false
  | some s => s != ""

/-- The filter predicate of `MemStorage.filterCases`: each truthy filter
field must match the corresponding case field. -/
def passesFilters (f : CaseFilters) (c : Case) : Bool :=
  if optTruthy f.assignmentGroup && (some c.assignmentGroup != f.assignmentGroup) then false
  else if optTruthy f.caseType && (some c.caseType != f.caseType) then false
  else if optTruthy f.status && (some c.status != f.status) then false
  else true

/-- `MemStorage.filterCases` (`server/storage.ts`): filter by the truthy
filter fields, then sort by the descending-similarity comparator. -/
def filterCases (cases : List Case) (f : CaseFilters) : List Case :=
  List.insertionSort caseDesc (cases.filter (passesFilters f))

/-- The JSON body of a `POST /api/search-similar` request:
`{ case_number, top_k }`, both optional (`top_k` defaults to 5 via the
destructuring `const { case_number, top_k = 5 } = req.body`). -/
structure SearchBody where
  case_number : Option String
  top_k : Option ℕ
  deriving DecidableEq

/-- The success payload of the route:
`{ success: true, case_number, similar_cases, total_found }`. -/
structure SuccessBody (β : Type) where
  case_number : String
  similar_cases : List β
  total_found : ℕ
  deriving DecidableEq

/-- The three response shapes of the `/api/search-similar` handler in
`server/storage.ts`: the 400 bad-request body, the 503 failure body, and
the 200 success body. -/
inductive RouteResponse (β : Type) where
  | badRequest (error : String)
  | unavailable (error : String) (message : String)
  | okJson (body : SuccessBody β)
  deriving DecidableEq

/-- HTTP status code of each response shape. -/
def RouteResponse.statusCode {β : Type} : RouteResponse β → ℕ
  | .badRequest _ => 400
  | .unavailable _ _ => 503
  | .okJson _ => 200

/-- The requested result count: `top_k` with the destructuring default 5. -/
def requestedTopK (body : SearchBody) : ℕ := body.top_k.getD 5

/-- The count passed to the engine: `Math.min(top_k, 20)` from
`server/storage.ts`. -/
def usedTopK (body : SearchBody) : ℕ := min (requestedTopK body) 20

/-- The count that actually reaches the ranking engine: the route's
`Math.min(top_k, 20)`, re-defaulted to 5 by the subprocess template's
`params.top_k || 5` when it is zero. -/
def effectiveTopK (body : SearchBody) : ℕ :=
  if usedTopK body = 0 then 5 else usedTopK body

/-- The `/api/search-similar` handler of `server/storage.ts`.  `engine`
stands for the `executePythonScript('get_similar_cases', …)` subprocess
call, which either rejects with an error message or resolves to a result
list.  The boolean records whether the engine was invoked. -/
def searchSimilarRoute {β : Type} (engine : String → ℕ → Except String (List β))
    (body : SearchBody) : RouteResponse β × Bool :=
  match body.case_number with
  | none => (.badRequest "case_number is required", false)
  | some cn =>
      if cn = "" then (.badRequest "case_number is required", false)
      else
        match engine cn (usedTopK body) with
        | .error msg => (.unavailable "Similarity search failed" msg, true)
        | .ok results => (.okJson ⟨cn, results, results.length⟩, true)

/-- The engine realised by the spec-modelled `rank` over a loaded table, as
the `executePythonScript('get_similar_cases', …)` subprocess call realises
it: the generated script template interpolates `params.top_k || 5`
(`server/storage.ts`), so a falsy (zero) count is re-defaulted to 5 before
the engine runs. -/
def rankEngine {α : Type} [LinearOrder α] (sim : List ℚ → List ℚ → α)
    (table : List CaseRecord) : String → ℕ → Except String (List (SimilarityResult α)) :=
  fun cn k =>
    match rank sim table cn (if k = 0 then 5 else k) with
    | .error (.notFound q) => .error ("Case " ++ q ++ " not found in topic_vectors table")
    | .ok res => .ok res

/-- The route handler composed with the ranking engine. -/
def findSimilarPipeline {α : Type} [LinearOrder α] (sim : List ℚ → List ℚ → α)
    (table : List CaseRecord) (body : SearchBody) : RouteResponse (SimilarityResult α) × Bool :=
  searchSimilarRoute (rankEngine sim table) body

/-- Modelled from the spec: an opaque authenticated session handle (§3). -/
structure Session where
  handle : ℕ
  deriving DecidableEq

/-- Modelled from the spec: session-acquisition failures of the Session
Manager (§4.1) — network-level failures are distinguished from
authentication rejection. -/
inductive AcquireError where
  | connectivity (message : String)
  | authentication (message : String)
  deriving DecidableEq

/-- Modelled from the spec: table-loading failure of the Table Loader
(§4.2). -/
inductive LoadError where
  | dataAccess (message : String)
  deriving DecidableEq

/-- Modelled from the spec: the `kind` discriminator carried by a
`RetrievalError` (§4.4). -/
inductive ErrorKind where
  | connectivity
  | authentication
  | dataAccess
  deriving DecidableEq

/-- Modelled from the spec: the failure value of `find_similar` (§4.4) —
an infrastructure `RetrievalError` with its kind discriminator, or the
distinct `NotFoundError` for an absent query identifier. -/
inductive FindFailure where
  | retrieval (kind : ErrorKind) (message : String)
  | notFound (query_id : String)
  deriving DecidableEq

/-- Modelled from the spec: the external analytic data store as seen by the
facade (§6) — the outcome of session acquisition and of fetching the table
through a session. -/
structure StoreEnv where
  acquire : Except AcquireError Session
  load : Session → Except LoadError (List CaseRecord)

/-- Modelled from the spec: the Retrieval Facade `find_similar` (§4.4) —
acquire a session, load the table, rank; failures of steps 1–2 are wrapped
into a `RetrievalError` carrying the matching kind, and a `NotFoundError`
from ranking is passed through distinctly.  The Python implementation is
not in the repository. -/
def find_similar {α : Type} [LinearOrder α] (sim : List ℚ → List ℚ → α)
    (env : StoreEnv) (query_id : String) (k : ℕ) :
    Except FindFailure (List (SimilarityResult α)) :=
  match env.acquire with
  | .error (.connectivity m) => .error (.retrieval .connectivity m)
  | .error (.authentication m) => .error (.retrieval .authentication m)
  | .ok s =>
      match env.load s with
      | .error (.dataAccess m) => .error (.retrieval .dataAccess m)
      | .ok table =>
          match rank sim table query_id k with
          | .error (.notFound q) => .error (.notFound q)
          | .ok res => .ok res

/-- Concrete record used to evaluate the development on sample inputs. -/
def crA : CaseRecord := ⟨"A", "tA", "rA", "gA", "cA", "sA", [1]⟩

/-- Concrete record used to evaluate the development on sample inputs. -/
def crB : CaseRecord := ⟨"B", "tB", "rB", "gB", "cB", "sB", [1]⟩

/-- Concrete record used to evaluate the development on sample inputs. -/
def crC : CaseRecord := ⟨"C", "tC", "rC", "gC", "cC", "sC", [1]⟩

/-- Concrete three-record table used to evaluate the development. -/
def tableW : List CaseRecord := [crC, crA, crB]

/-- Concrete similarity function (constant, so every pair ties) used to
evaluate the development on sample inputs. -/
def simW : List ℚ → List ℚ → ℤ := fun _ _ => 0

/-- The result list `rank simW tableW "A" 2` evaluates to. -/
def resW : List (SimilarityResult ℤ) :=
  [⟨"B", 0, "tB", "rB", "gB", "cB", "sB"⟩, ⟨"C", 0, "tC", "rC", "gC", "cC", "sC"⟩]

/-- Concrete environment whose session acquisition fails with a
connectivity error. -/
def envConnW : StoreEnv := ⟨.error (.connectivity "down"), fun _ => .ok []⟩

/-- Concrete environment whose session acquisition fails with an
authentication error. -/
def envAuthW : StoreEnv := ⟨.error (.authentication "denied"), fun _ => .ok []⟩

/-- Concrete environment whose table load fails with a data-access error. -/
def envDataW : StoreEnv := ⟨.ok ⟨0⟩, fun _ => .error (.dataAccess "missing table")⟩

/-- Concrete environment that succeeds and yields the empty table. -/
def envEmptyW : StoreEnv := ⟨.ok ⟨0⟩, fun _ => .ok []⟩

/-! ### Helper lemmas about the similarity engine -/

theorem rank_ok_elim {α : Type} [LinearOrder α] {sim : List ℚ → List ℚ → α}
    {table : List CaseRecord} {q : String} {k : ℕ} {res : List (SimilarityResult α)}
    (h : rank sim table q k = Except.ok res) :
    ∃ qrec, table.find? (fun r => r.case_id == q) = some qrec ∧
      res = (List.insertionSort resOrder (scoreTable sim qrec (candidatesOf table q))).take k := by
  unfold rank at h
  split at h
  · exact absurd h (by simp)
  · rename_i qrec hfind
    injection h with h
    exact ⟨qrec, hfind, h.symm⟩

theorem find_query {table : List CaseRecord} {q : String}
    (hq : ∃ r ∈ table, r.case_id = q) :
    ∃ qrec, table.find? (fun r => r.case_id == q) = some qrec := by
  have hs : (table.find? (fun r => r.case_id == q)).isSome := by
    rw [List.find?_isSome]
    obtain ⟨r, hr, hid⟩ := hq
    exact ⟨r, hr, by simp [hid]⟩
  exact Option.isSome_iff_exists.mp hs

theorem rank_isOk {α : Type} [LinearOrder α] (sim : List ℚ → List ℚ → α)
    {table : List CaseRecord} {q : String} (k : ℕ)
    (hq : ∃ r ∈ table, r.case_id = q) :
    ∃ res, rank sim table q k = Except.ok res := by
  obtain ⟨qrec, hfind⟩ := find_query hq
  have heq : rank sim table q k =
      Except.ok ((List.insertionSort resOrder
        (scoreTable sim qrec (candidatesOf table q))).take k) := by
    unfold rank
    rw [hfind]
  exact ⟨_, heq⟩

theorem rank_pairwise {α : Type} [LinearOrder α] {sim : List ℚ → List ℚ → α}
    {table : List CaseRecord} {q : String} {k : ℕ} {res : List (SimilarityResult α)}
    (h : rank sim table q k = Except.ok res) : res.Pairwise resOrder := by
  obtain ⟨qrec, _, hres⟩ := rank_ok_elim h
  subst hres
  exact List.Pairwise.sublist (List.take_sublist _ _)
    (List.sorted_insertionSort resOrder _)

theorem rank_mem_ne {α : Type} [LinearOrder α] {sim : List ℚ → List ℚ → α}
    {table : List CaseRecord} {q : String} {k : ℕ} {res : List (SimilarityResult α)}
    (h : rank sim table q k = Except.ok res) {s : SimilarityResult α} (hs : s ∈ res) :
    s.case_id ≠ q := by
  obtain ⟨qrec, _, hres⟩ := rank_ok_elim h
  subst hres
  have h1 : s ∈ List.insertionSort resOrder (scoreTable sim qrec (candidatesOf table q)) :=
    List.take_subset _ _ hs
  have h2 : s ∈ scoreTable sim qrec (candidatesOf table q) :=
    (List.perm_insertionSort resOrder _).mem_iff.mp h1
  rw [scoreTable, List.mem_map] at h2
  obtain ⟨r, hr, hsr⟩ := h2
  rw [candidatesOf, List.mem_filter] at hr
  have hne : r.case_id ≠ q := by simpa using hr.2
  rw [← hsr]
  exact hne

theorem rank_length {α : Type} [LinearOrder α] {sim : List ℚ → List ℚ → α}
    {table : List CaseRecord} {q : String} {k : ℕ} {res : List (SimilarityResult α)}
    (h : rank sim table q k = Except.ok res) :
    res.length = min k (candidatesOf table q).length := by
  obtain ⟨qrec, _, hres⟩ := rank_ok_elim h
  subst hres
  rw [List.length_take, (List.perm_insertionSort resOrder _).length_eq,
    scoreTable, List.length_map]

theorem candidates_length_lt {table : List CaseRecord} {q : String}
    (hq : ∃ r ∈ table, r.case_id = q) :
    (candidatesOf table q).length < table.length := by
  rw [candidatesOf]
  apply List.length_filter_lt_length_iff_exists.mpr
  obtain ⟨r, hr, hid⟩ := hq
  exact ⟨r, hr, by simp [hid]⟩

theorem rank_ids_nodup {α : Type} [LinearOrder α] {sim : List ℚ → List ℚ → α}
    {table : List CaseRecord} {q : String} {k : ℕ} {res : List (SimilarityResult α)}
    (h : rank sim table q k = Except.ok res)
    (hn : (table.map CaseRecord.case_id).Nodup) :
    (res.map SimilarityResult.case_id).Nodup := by
  obtain ⟨qrec, _, hres⟩ := rank_ok_elim h
  subst hres
  have h1 : List.Sublist ((candidatesOf table q).map CaseRecord.case_id)
      (table.map CaseRecord.case_id) := by
    rw [candidatesOf]
    exact (List.filter_sublist _).map _
  have h2 : ((candidatesOf table q).map CaseRecord.case_id).Nodup := h1.nodup hn
  have h3 : (scoreTable sim qrec (candidatesOf table q)).map SimilarityResult.case_id
      = (candidatesOf table q).map CaseRecord.case_id := by
    rw [scoreTable, List.map_map]
    rfl
  have h4 : ((List.insertionSort resOrder
      (scoreTable sim qrec (candidatesOf table q))).map SimilarityResult.case_id).Nodup := by
    have hp := (List.perm_insertionSort resOrder
      (scoreTable sim qrec (candidatesOf table q))).map SimilarityResult.case_id
    rw [hp.nodup_iff, h3]
    exact h2
  exact ((List.take_sublist k _).map _).nodup h4

/-! ### Claim theorems -/

/-- C1: for every table `T`, query identifier `q` present in `T`, and `k`,
`rank` succeeds and its result contains no entry whose case identifier is
`q`, and its length is at most `min k (|T| - 1)`. -/
theorem rank_excludes_query_and_length_bound {α : Type} [LinearOrder α]
    (sim : List ℚ → List ℚ → α) (table : List CaseRecord) (q : String) (k : ℕ)
    (hq : ∃ r ∈ table, r.case_id = q) :
    ∃ res, rank sim table q k = Except.ok res ∧
      (∀ s ∈ res, s.case_id ≠ q) ∧ res.length ≤ min k (table.length - 1) := by
  obtain ⟨res, hres⟩ := rank_isOk sim k hq
  refine ⟨res, hres, fun s hs => rank_mem_ne hres hs, ?_⟩
  rw [rank_length hres]
  exact min_le_min le_rfl (Nat.le_pred_of_lt (candidates_length_lt hq))

/-- Witness for C1 at a concrete table and query. -/
theorem rank_excludes_query_and_length_bound_witness :
    (∃ r ∈ tableW, r.case_id = "A") ∧
      (∃ res, rank simW tableW "A" 1 = Except.ok res ∧
        (∀ s ∈ res, s.case_id ≠ "A") ∧ res.length ≤ min 1 (tableW.length - 1)) :=
  ⟨by decide, rank_excludes_query_and_length_bound simW tableW "A" 1 (by decide)⟩

/-- C2: every result list of a successful `rank` has non-increasing
similarity scores, and the lists returned by the storage operations
`getAllCases`, `searchCases` and `filterCases` are likewise sorted
descending by their `similarity` column. -/
theorem results_sorted_descending :
    (∀ (α : Type) [inst : LinearOrder α] (sim : List ℚ → List ℚ → α)
        (table : List CaseRecord) (q : String) (k : ℕ) (res : List (SimilarityResult α)),
      rank sim table q k = Except.ok res → res.Pairwise (fun a b => b.score ≤ a.score)) ∧
    (∀ cs : List Case, (getAllCases cs).Pairwise (fun a b => b.similarity ≤ a.similarity)) ∧
    (∀ (cs : List Case) (query : String),
      (searchCases cs query).Pairwise (fun a b => b.similarity ≤ a.similarity)) ∧
    (∀ (cs : List Case) (f : CaseFilters),
      (filterCases cs f).Pairwise (fun a b => b.similarity ≤ a.similarity)) := by
  refine ⟨?_, ?_, ?_, ?_⟩
  · intro α inst sim table q k res h
    exact (rank_pairwise h).imp
      (fun hab => hab.elim le_of_lt (fun hp => le_of_eq hp.1.symm))
  · intro cs
    exact List.sorted_insertionSort caseDesc cs
  · intro cs query
    exact List.sorted_insertionSort caseDesc _
  · intro cs f
    exact List.sorted_insertionSort caseDesc _

/-- Witness for C2 at a concrete table and query. -/
theorem results_sorted_descending_witness :
    rank simW tableW "A" 2 = Except.ok resW ∧
      resW.Pairwise (fun a b => b.score ≤ a.score) :=
  ⟨rfl, results_sorted_descending.1 ℤ simW tableW "A" 2 resW rfl⟩

/-- C3: `rank` is a pure function, so re-running it on identical input
yields an identical result; moreover, in any successful result, entries
with exactly equal scores are ordered by non-decreasing case identifier,
and by strictly ascending case identifier whenever the table's identifiers
are distinct (which the spec guarantees for a `CaseTable`). -/
theorem rank_deterministic_tiebreak :
    ∀ (α : Type) [inst : LinearOrder α] (sim : List ℚ → List ℚ → α)
      (table : List CaseRecord) (q : String) (k : ℕ),
      rank sim table q k = rank sim table q k ∧
      ∀ res, rank sim table q k = Except.ok res →
        res.Pairwise (fun a b => a.score = b.score → a.case_id ≤ b.case_id) ∧
        ((table.map CaseRecord.case_id).Nodup →
          res.Pairwise (fun a b => a.score = b.score → a.case_id < b.case_id)) := by
  intro α inst sim table q k
  refine ⟨rfl, fun res h => ⟨?_, fun hn => ?_⟩⟩
  · refine (rank_pairwise h).imp (fun hab heq => ?_)
    rcases hab with hlt | ⟨_, hle⟩
    · exact absurd (heq ▸ hlt) (lt_irrefl _)
    · exact String.le_iff_toList_le.mpr hle
  · have hne : res.Pairwise (fun a b => a.case_id ≠ b.case_id) :=
      List.pairwise_map.mp (rank_ids_nodup h hn)
    refine ((rank_pairwise h).and hne).imp (fun hab heq => ?_)
    obtain ⟨ho, hne'⟩ := hab
    rcases ho with hlt | ⟨_, hle⟩
    · exact absurd (heq ▸ hlt) (lt_irrefl _)
    · refine String.lt_iff_toList_lt.mpr (lt_of_le_of_ne hle (fun hd => hne' ?_))
      exact congrArg String.mk hd

/-- Witness for C3 at a concrete table with tied scores. -/
theorem rank_deterministic_tiebreak_witness :
    resW.Pairwise (fun a b => a.score = b.score → a.case_id ≤ b.case_id) ∧
      resW.Pairwise (fun a b => a.score = b.score → a.case_id < b.case_id) := by
  have h := (rank_deterministic_tiebreak ℤ simW tableW "A" 2).2 resW rfl
  exact ⟨h.1, h.2 (by decide)⟩

theorem normSq_nonneg (v : List ℚ) : 0 ≤ normSq v := by
  rw [normSq, dotProduct, List.zipWith_same]
  apply List.sum_nonneg
  intro x hx
  rw [List.mem_map] at hx
  obtain ⟨a, _, rfl⟩ := hx
  exact mul_self_nonneg a

theorem vecNorm_eq_zero {v : List ℚ} (h : vecNorm v = 0) : normSq v = 0 := by
  rw [vecNorm] at h
  have h0 : ((normSq v : ℚ) : ℝ) = 0 :=
    (Real.sqrt_eq_zero (by exact_mod_cast normSq_nonneg v)).mp h
  exact_mod_cast h0

/-- C4: if either embedding vector has zero norm, the cosine similarity of
the pair is exactly `0`.  In this model `cosineSim` is a total real-valued
function, so no `NaN` and no exception can arise. -/
theorem cosineSim_zero_norm (q v : List ℚ) (h : vecNorm q = 0 ∨ vecNorm v = 0) :
    cosineSim q v = 0 := by
  rw [cosineSim]
  rcases h with h | h
  · rw [if_pos (Or.inl (vecNorm_eq_zero h))]
  · rw [if_pos (Or.inr (vecNorm_eq_zero h))]

/-- Witness for C4 at a concrete degenerate vector. -/
theorem cosineSim_zero_norm_witness :
    (vecNorm [(0 : ℚ), 0] = 0 ∨ vecNorm [(1 : ℚ), 2] = 0) ∧
      cosineSim [(0 : ℚ), 0] [(1 : ℚ), 2] = 0 := by
  have h : vecNorm [(0 : ℚ), 0] = 0 := by
    rw [vecNorm]
    norm_num [normSq, dotProduct]
  exact ⟨Or.inl h, cosineSim_zero_norm [(0 : ℚ), 0] [(1 : ℚ), 2] (Or.inl h)⟩

/-- C5 counterexample: at requested `top_k = 0` the route's clamp gives
`min 0 20 = 0`, but the subprocess template's `params.top_k || 5` fallback
(`server/storage.ts`) ranks with 5, returning both candidates — so the
result length is not `min (usedTopK body) candidates` as the claim as
stated would require. -/
theorem pipeline_topk_clamped_counterexample :
    findSimilarPipeline simW tableW ⟨some "A", some 0⟩ =
        (RouteResponse.okJson ⟨"A", resW, 2⟩, true) ∧
      resW.length ≠ min (usedTopK ⟨some "A", some 0⟩) (candidatesOf tableW "A").length :=
  ⟨rfl, by decide⟩

/-- C5 (amended): whenever the `/api/search-similar` pipeline answers
successfully, the count used for ranking is the requested `top_k` clamped
to the configured maximum 20 and then re-defaulted to 5 if zero (the
subprocess template's `params.top_k || 5`); the result length is that
count further clamped to the number of available candidates, and so the
result never exceeds 20 entries. -/
theorem pipeline_topk_clamped :
    ∀ (α : Type) [inst : LinearOrder α] (sim : List ℚ → List ℚ → α)
      (table : List CaseRecord) (body : SearchBody)
      (sb : SuccessBody (SimilarityResult α)) (invoked : Bool),
      findSimilarPipeline sim table body = (RouteResponse.okJson sb, invoked) →
      usedTopK body = min (requestedTopK body) 20 ∧
      sb.similar_cases.length = min (effectiveTopK body) (candidatesOf table sb.case_number).length ∧
      effectiveTopK body ≤ 20 ∧
      sb.similar_cases.length ≤ 20 := by
  intro α inst sim table body sb invoked h
  obtain ⟨cn, tk⟩ := body
  have he : effectiveTopK ⟨cn, tk⟩ ≤ 20 := by
    rw [effectiveTopK]
    split
    · norm_num
    · exact Nat.min_le_right _ _
  cases cn with
  | none =>
    simp only [findSimilarPipeline, searchSimilarRoute] at h
    exact absurd (congrArg Prod.fst h) (by simp)
  | some s =>
    simp only [findSimilarPipeline, searchSimilarRoute] at h
    by_cases hs : s = ""
    · rw [if_pos hs] at h
      exact absurd (congrArg Prod.fst h) (by simp)
    · rw [if_neg hs] at h
      split at h
      · exact absurd (congrArg Prod.fst h) (by simp)
      · rename_i results heng
        have h1 : RouteResponse.okJson ⟨s, results, results.length⟩ = RouteResponse.okJson sb :=
          congrArg Prod.fst h
        injection h1 with h1
        simp only [rankEngine] at heng
        split at heng
        · exact absurd heng (by simp)
        · rename_i res hrank
          injection heng with heng
          subst heng
          cases h1
          refine ⟨rfl, rank_length hrank, he, ?_⟩
          exact le_trans (le_of_eq (rank_length hrank))
            (le_trans (Nat.min_le_left _ _) he)

/-- Witness for the amended C5 at a concrete request asking for 50
results. -/
theorem pipeline_topk_clamped_witness :
    findSimilarPipeline simW tableW ⟨some "A", some 50⟩ =
        (RouteResponse.okJson ⟨"A", resW, 2⟩, true) ∧
      (usedTopK ⟨some "A", some 50⟩ = min (requestedTopK ⟨some "A", some 50⟩) 20 ∧
        resW.length = min (effectiveTopK ⟨some "A", some 50⟩) (candidatesOf tableW "A").length ∧
        effectiveTopK ⟨some "A", some 50⟩ ≤ 20 ∧
        resW.length ≤ 20) :=
  ⟨rfl, pipeline_topk_clamped ℤ simW tableW ⟨some "A", some 50⟩ ⟨"A", resW, 2⟩ true rfl⟩

/-- C6: a request body without `top_k` behaves exactly like one that asks
for `top_k = 5`; the requested count defaults to 5. -/
theorem topk_default_five :
    ∀ (β : Type) (engine : String → ℕ → Except String (List β)) (cn : String),
      requestedTopK ⟨some cn, none⟩ = 5 ∧
      searchSimilarRoute engine ⟨some cn, none⟩ = searchSimilarRoute engine ⟨some cn, some 5⟩ := by
  intro β engine cn
  exact ⟨rfl, rfl⟩

/-- C7: every session-acquisition or table-loading failure surfaces from
`find_similar` as a failure value carrying the matching `error_kind`
discriminator, and the three kinds (connectivity, authentication,
data-access) are pairwise distinct. -/
theorem find_similar_error_kinds :
    ∀ (α : Type) [inst : LinearOrder α] (sim : List ℚ → List ℚ → α)
      (env : StoreEnv) (q : String) (k : ℕ),
      (∀ m, env.acquire = Except.error (AcquireError.connectivity m) →
        find_similar sim env q k = Except.error (FindFailure.retrieval ErrorKind.connectivity m)) ∧
      (∀ m, env.acquire = Except.error (AcquireError.authentication m) →
        find_similar sim env q k = Except.error (FindFailure.retrieval ErrorKind.authentication m)) ∧
      (∀ s m, env.acquire = Except.ok s → env.load s = Except.error (LoadError.dataAccess m) →
        find_similar sim env q k = Except.error (FindFailure.retrieval ErrorKind.dataAccess m)) ∧
      (ErrorKind.connectivity ≠ ErrorKind.authentication ∧
        ErrorKind.connectivity ≠ ErrorKind.dataAccess ∧
        ErrorKind.authentication ≠ ErrorKind.dataAccess) := by
  intro α inst sim env q k
  refine ⟨fun m hm => ?_, fun m hm => ?_, fun s m hs hm => ?_,
    by decide, by decide, by decide⟩
  · simp only [find_similar, hm]
  · simp only [find_similar, hm]
  · simp only [find_similar, hs, hm]

/-- Witness for C7 at a concrete failing environment. -/
theorem find_similar_error_kinds_witness :
    envConnW.acquire = Except.error (AcquireError.connectivity "down") ∧
      find_similar simW envConnW "A" 5 =
        Except.error (FindFailure.retrieval ErrorKind.connectivity "down") :=
  ⟨rfl, (find_similar_error_kinds ℤ simW envConnW "A" 5).1 "down" rfl⟩

/-- C8: when the infrastructure succeeds but the query identifier is absent
from the loaded table, `find_similar` fails with the `notFound` value,
which is distinct from every infrastructure `retrieval` failure, so the
caller can tell the two classes apart. -/
theorem find_similar_notfound_distinct :
    ∀ (α : Type) [inst : LinearOrder α] (sim : List ℚ → List ℚ → α)
      (env : StoreEnv) (q : String) (k : ℕ) (s : Session) (table : List CaseRecord),
      env.acquire = Except.ok s → env.load s = Except.ok table →
      (∀ r ∈ table, r.case_id ≠ q) →
      find_similar sim env q k = Except.error (FindFailure.notFound q) ∧
      ∀ (kind : ErrorKind) (m : String),
        FindFailure.notFound q ≠ FindFailure.retrieval kind m := by
  intro α inst sim env q k s table hs ht habs
  have hfind : table.find? (fun r => r.case_id == q) = none := by
    rw [List.find?_eq_none]
    intro r hr
    simpa using habs r hr
  have hrank : rank sim table q k = Except.error (RankError.notFound q) := by
    unfold rank
    rw [hfind]
  refine ⟨?_, fun kind m => by simp⟩
  simp only [find_similar, hs, ht, hrank]

/-- Witness for C8 at a concrete environment serving an empty table. -/
theorem find_similar_notfound_distinct_witness :
    envEmptyW.acquire = Except.ok ⟨0⟩ ∧
      (∀ r ∈ ([] : List CaseRecord), r.case_id ≠ "Z") ∧
      find_similar simW envEmptyW "Z" 5 = Except.error (FindFailure.notFound "Z") := by
  refine ⟨rfl, by simp, ?_⟩
  exact (find_similar_notfound_distinct ℤ simW envEmptyW "Z" 5 ⟨0⟩ [] rfl rfl (by simp)).1

/-- C9: a request body with no truthy `case_number` is answered with the
400 bad-request response `{ success: false, error: "case_number is
required" }` and the similarity engine subprocess is never invoked. -/
theorem missing_case_number_rejected :
    ∀ (β : Type) (engine : String → ℕ → Except String (List β)) (body : SearchBody),
      optTruthy body.case_number = false →
      searchSimilarRoute engine body = (RouteResponse.badRequest "case_number is required", false) ∧
      (RouteResponse.badRequest (β := β) "case_number is required").statusCode = 400 := by
  intro β engine body h
  obtain ⟨cn, tk⟩ := body
  cases cn with
  | none => exact ⟨rfl, rfl⟩
  | some s =>
    have hs : s = "" := by simpa [optTruthy] using h
    subst hs
    exact ⟨rfl, rfl⟩

/-- Witness for C9 at a concrete body lacking `case_number`. -/
theorem missing_case_number_rejected_witness :
    optTruthy (SearchBody.case_number ⟨none, none⟩) = false ∧
      (searchSimilarRoute (fun _ _ => Except.ok ([] : List ℕ)) ⟨none, none⟩ =
          (RouteResponse.badRequest "case_number is required", false) ∧
        (RouteResponse.badRequest (β := ℕ) "case_number is required").statusCode = 400) :=
  ⟨rfl, missing_case_number_rejected ℕ (fun _ _ => Except.ok []) ⟨none, none⟩ rfl⟩

/-- C10: every success response of the route reports `total_found` equal to
the length of `similar_cases` and echoes the request's `case_number`
unchanged. -/
theorem success_response_consistent :
    ∀ (β : Type) (engine : String → ℕ → Except String (List β)) (body : SearchBody)
      (sb : SuccessBody β) (invoked : Bool),
      searchSimilarRoute engine body = (RouteResponse.okJson sb, invoked) →
      sb.total_found = sb.similar_cases.length ∧ body.case_number = some sb.case_number := by
  intro β engine body sb invoked h
  obtain ⟨cn, tk⟩ := body
  cases cn with
  | none =>
    simp only [searchSimilarRoute] at h
    exact absurd (congrArg Prod.fst h) (by simp)
  | some s =>
    simp only [searchSimilarRoute] at h
    by_cases hs : s = ""
    · rw [if_pos hs] at h
      exact absurd (congrArg Prod.fst h) (by simp)
    · rw [if_neg hs] at h
      split at h
      · exact absurd (congrArg Prod.fst h) (by simp)
      · rename_i results heng
        have h1 : RouteResponse.okJson ⟨s, results, results.length⟩ = RouteResponse.okJson sb :=
          congrArg Prod.fst h
        injection h1 with h1
        cases h1
        exact ⟨rfl, rfl⟩

/-- Witness for C10 at a concrete succeeding engine. -/
theorem success_response_consistent_witness :
    searchSimilarRoute (fun _ _ => Except.ok ([0] : List ℕ)) ⟨some "X", none⟩ =
        (RouteResponse.okJson ⟨"X", [0], 1⟩, true) ∧
      ((1 : ℕ) = ([0] : List ℕ).length ∧ (some "X" : Option String) = some "X") :=
  ⟨rfl, success_response_consistent ℕ (fun _ _ => Except.ok [0]) ⟨some "X", none⟩
    ⟨"X", [0], 1⟩ true rfl⟩

end CaseMatch
